import Mathlib

/-!
Shallow embedding of `build.py`, the PhantomJS build orchestrator.

The script is modelled as pure functions over an explicit `World` (host
platform, environment variables, filesystem predicates, CPU count) and an
`Options` record mirroring the argparse result.  Side effects (command
echoes, process spawns, `subprocess.call` shell invocations, informational
prints, `os.putenv`) are reified as an ordered `List Event` trace, and
Python exceptions (`RuntimeError`, `KeyError`) as an `Except PyError`
result.  Every definition is translated from the source, preserving its
control flow and the order in which commands are issued.
-/

namespace Build

/-- Result of `platform.system()`: the script only distinguishes
`"Windows"`, `"Darwin"`, and everything else (Linux, BSD, ...). -/
inductive Platform
  | windows
  | darwin
  | otherUnix
deriving DecidableEq, Repr

/-- Host state the script consults: environment variables, filesystem
predicates (`os.path.isfile`, `os.access(..., X_OK)`, `os.path.isdir`,
`os.path.exists`), CPU count, path resolution (`os.path.abspath` relative
to the script directory), the behaviour of the library routine
`shlex.split`, and the exit status the operating system reports for a
spawned command in a working directory. -/
structure World where
  platform : Platform
  env : String → Option String
  isFile : String → Bool
  accessXOK : String → Bool
  isDir : String → Bool
  pathExists : String → Bool
  cpuCount : Nat
  abspath : String → String
  shlexSplit : String → List String
  exitCode : List String → String → Int
  root : String

/-- The argparse options record produced by `parseArguments`.
`store_true` flags default to `false`; `type=int` and `action="append"`
options default to Python `None`, modelled as `Option`. -/
structure Options where
  release : Bool
  debug : Bool
  jobs : Option Int
  confirm : Bool
  dry_run : Bool
  silent : Bool
  qmake_args : Option (List String)
  webkit_qmake_args : Option (List String)
  phantomjs_qmake_args : Option (List String)
  qt_config : Option (List String)
  git_clean_qtbase : Bool
  git_clean_qtwebkit : Bool
  skip_qtbase : Bool
  skip_configure_qtbase : Bool
  skip_qtwebkit : Bool
  skip_configure_qtwebkit : Bool
  skip_git : Bool
  disable_touch_events : Bool
deriving DecidableEq, Repr

/-- The argparse defaults: all boolean flags `false`, all
int/append options `None`. -/
def defaultOptions : Options where
  release := false
  debug := false
  jobs := none
  confirm := false
  dry_run := false
  silent := false
  qmake_args := none
  webkit_qmake_args := none
  phantomjs_qmake_args := none
  qt_config := none
  git_clean_qtbase := false
  git_clean_qtwebkit := false
  skip_qtbase := false
  skip_configure_qtbase := false
  skip_qtwebkit := false
  skip_configure_qtwebkit := false
  skip_git := false
  disable_touch_events := false

/-- Observable actions of a run, in program order.
`echo` is the `print("Executing in %s: %s" ...)` audit line inside
`PhantomJSBuilder.execute`; `spawn` is an actual `subprocess.Popen`;
`shellCall` is a `subprocess.call(cmd, shell=True)` (these always spawn a
shell, they are not routed through `execute`); `msg` is any other
informational `print`; `putenv` is `os.putenv`. -/
inductive Event
  | echo (dir : String) (cmd : List String)
  | spawn (dir : String) (cmd : List String)
  | shellCall (cmd : String)
  | msg (s : String)
  | putenv (key val : String)
deriving DecidableEq, Repr

/-- Python exceptions the script can raise: `RuntimeError(msg)` raised
explicitly, `KeyError(key)` from `os.environ[key]` on a missing
variable, and `UnboundLocalError(varName)` from reading a local variable
on a path where it was never assigned.  Only `RuntimeError` is caught in
`main`; the other two escape as tracebacks. -/
inductive PyError
  | runtimeError (msg : String)
  | keyError (key : String)
  | unboundLocalError (varName : String)
deriving DecidableEq, Repr

/-- Discriminator: is this exception a `RuntimeError` — the only kind
`main` catches, and the only mechanism by which the script reports a
configuration error? -/
def PyError.isRuntimeError : PyError → Bool
  | .runtimeError _ => true
  | _ => false

/-- Python truthiness of an `int`-typed option: `None` and `0` are falsy. -/
def pyTruthyInt : Option Int → Bool
  | none => false
  | some j => j != 0

/-- Python truthiness of a list-typed option: `None` and `[]` are falsy. -/
def pyTruthyList : Option (List String) → Bool
  | none => false
  | some l => !l.isEmpty

/-- The string form of an (always present when used) int option,
as produced by `str(...)` inside `execute`. -/
def pyStrOfOptInt : Option Int → String
  | none => ""
  | some j => toString j

/-- Characters of Python's `\s` class and of `str.strip()` with no
argument. -/
def isPySpaceChar (c : Char) : Bool :=
  c = ' ' || c = '\t' || c = '\n' || c = '\r' || c = Char.ofNat 11 || c = Char.ofNat 12

/-- Python `re.match("-j\\s*[0-9]+", s)`: anchored at the start of `s`,
a literal `-j`, any number of whitespace characters, then at least one
digit. -/
def matchDashJ (s : String) : Bool :=
  match s.toList with
  | '-' :: 'j' :: rest =>
    match rest.dropWhile isPySpaceChar with
    | c :: _ => c.isDigit
    | [] => false
  | _ => false

/-- Python `str.split(sep)` for a single-character separator, which keeps
empty fields (helper on character lists; `acc` is the current field,
reversed). -/
def pySplitCharAux (sep : Char) : List Char → List Char → List (List Char)
  | [], acc => [acc.reverse]
  | c :: cs, acc =>
    if c = sep then acc.reverse :: pySplitCharAux sep cs []
    else pySplitCharAux sep cs (c :: acc)

/-- Python `s.split(sep)` for a one-character separator. -/
def pySplitChar (sep : Char) (s : String) : List String :=
  (pySplitCharAux sep s.toList []).map String.mk

/-- Python `s.strip()` (no argument): remove whitespace at both ends. -/
def pyStrip (s : String) : String :=
  String.mk (((s.toList.dropWhile isPySpaceChar).reverse.dropWhile isPySpaceChar).reverse)

/-- Python `os.pathsep`: `;` on Windows, `:` elsewhere. -/
def ospPathSep : Platform → Char
  | .windows => ';'
  | _ => ':'

/-- Python `os.sep`. -/
def ospSep : Platform → String
  | .windows => "\\"
  | _ => "/"

/-- Python `os.path.join(a, b)` as used by the script (a directory from
`PATH` joined with a program name): empty left component yields the right
component unchanged. -/
def ospJoin (p : Platform) (a b : String) : String :=
  if a = "" then b else a ++ ospSep p ++ b

/-- Line 74: `isExe(fpath)` — `os.path.isfile(fpath) and
os.access(fpath, os.X_OK)`. -/
def isExe (w : World) (fpath : String) : Bool :=
  w.isFile fpath && w.accessXOK fpath

/-- Loop body of `which`: scan the directories of `PATH` in order,
returning the first `os.path.join(path, program)` that is executable.
`path.strip("")` strips the empty character set, i.e. leaves `path`
unchanged. -/
def whichSearch (w : World) (program : String) : List String → Option String
  | [] => none
  | path :: rest =>
    let exe_file := ospJoin w.platform path program
    if isExe w exe_file then some exe_file
    else whichSearch w program rest

/-- Line 79: `which(program)`. Returns the program itself when directly
executable; otherwise iterates over `os.environ["PATH"]` split on
`os.pathsep` — note `os.environ["PATH"]` raises `KeyError` when `PATH`
is absent from the environment — and returns `None` when nothing
matches. -/
def which (w : World) (program : String) : Except PyError (Option String) :=
  if isExe w program then .ok (some program)
  else
    match w.env "PATH" with
    | none => .error (.keyError "PATH")
    | some pathVar =>
      .ok (whichSearch w program (pySplitChar (ospPathSep w.platform) pathVar))

/-- Line 91: `qmakePath()` — path of the QMake executable built inside
the bundled QtBase fork, with `.exe` appended on Windows. -/
def qmakePath (w : World) : String :=
  let exe := if w.platform = .windows then "qmake.exe" else "qmake"
  w.abspath ("src/qt/qtbase/bin/" ++ exe)

/-- Line 43: the third-party dependency names (Windows only). -/
def third_party_names : List String := ["libicu", "libxml", "openssl", "zlib"]

/-- Line 44: `third_party_path = os.path.join(root, "src", "qt", "3rdparty")`. -/
def third_party_path (w : World) : String :=
  ospJoin w.platform (ospJoin w.platform (ospJoin w.platform w.root "src") "qt") "3rdparty"

/-- Line 45: the compile-time feature-disable macros appended identically
on every platform. -/
def qt_compile_defs : List String :=
  ["QT_NO_GRAPHICSVIEW", "QT_NO_GRAPHICSEFFECT", "QT_NO_STYLESHEET",
   "QT_NO_STYLE_CDE", "QT_NO_STYLE_CLEANLOOKS", "QT_NO_STYLE_MOTIF",
   "QT_NO_STYLE_PLASTIQUE", "QT_NO_PRINTPREVIEWDIALOG"]

/-- Line 98: `findThirdPartyDeps()` — `-I`/`-L` directory pairs for each
bundled third-party library (Windows only). -/
def findThirdPartyDeps (w : World) : List String × List String :=
  (third_party_names.foldl (fun acc dep =>
     acc ++ ["-I", ospJoin w.platform (ospJoin w.platform (third_party_path w) dep) "include"]) [],
   third_party_names.foldl (fun acc dep =>
     acc ++ ["-L", ospJoin w.platform (ospJoin w.platform (third_party_path w) dep) "lib"]) [])

/-- One entry of the fixed OpenSSL search table (line 56). -/
structure SearchPathEntry where
  name : String
  header : String
  flags : List String
deriving DecidableEq, Repr

/-- The Homebrew entry of `openssl_search_paths`. -/
def brewSearchPath : SearchPathEntry where
  name := "Brew"
  header := "/usr/local/opt/openssl/include/openssl/opensslv.h"
  flags := ["-I/usr/local/opt/openssl/include", "-L/usr/local/opt/openssl/lib"]

/-- The MacPorts entry of `openssl_search_paths`. -/
def macportsSearchPath : SearchPathEntry where
  name := "MacPorts"
  header := "/opt/local/include/openssl/opensslv.h"
  flags := ["-I/opt/local/include", "-L/opt/local/lib"]

/-- Line 56: `openssl_search_paths`, probed in order on Darwin. -/
def openssl_search_paths : List SearchPathEntry :=
  [brewSearchPath, macportsSearchPath]

/-- The builder object: the options snapshot stored by `__init__` and the
derived make command (`self.makeCommand`). -/
structure Builder where
  options : Options
  makeCommand : List String
deriving DecidableEq, Repr

/-- Lines 121-130: the non-Windows branch of `__init__` deriving
`self.makeCommand`.  `if self.options.jobs:` uses Python truthiness, so
`None` and `0` both fall through to the `MAKEFLAGS` check; the job-count
values are rendered by `str()` when the command is executed, modelled
here by converting at construction. -/
def unixMakeCommand (options : Options) (w : World) : List String :=
  let flags :=
    if pyTruthyInt options.jobs then
      ["-j", pyStrOfOptInt options.jobs]
    else if !matchDashJ ((w.env "MAKEFLAGS").getD "") then
      ["-j", toString w.cpuCount]
    else []
  ["make"] ++ flags

/-- Lines 132-135 of `__init__`: the mutation of the stored options —
when no `.git` directory exists, `self.options.skip_git` is set to
`True`. -/
def initOptions (options : Options) (w : World) : Options :=
  if !w.isDir ".git" then { options with skip_git := true } else options

/-- Lines 112-135: `PhantomJSBuilder.__init__`.  On Windows it locates
`jom.exe` via `which` (falling back to `nmake`), which can raise
`KeyError`; elsewhere it derives the make command from the job options.
It then mutates the stored options as in `initOptions`. -/
def initBuilder (options : Options) (w : World) : Except PyError Builder :=
  let mkMake : Except PyError (List String) :=
    if w.platform = .windows then
      match which w "jom.exe" with
      | .error e => .error e
      | .ok r =>
        let makeExe := match r with
          | some p => p
          | none => "nmake"
        .ok [makeExe, "/NOLOGO"]
    else
      .ok (unixMakeCommand options w)
  match mkMake with
  | .error e => .error e
  | .ok mc => .ok { options := initOptions options w, makeCommand := mc }

/-- Lines 138-147: `execute(command, workingDirectory)` — resolve the
working directory, echo the command line, then under dry-run return `0`
without spawning; otherwise spawn the process and return its exit code. -/
def execute (b : Builder) (w : World) (command : List String) (workingDirectory : String) :
    Int × List Event :=
  let workingDirectory := w.abspath workingDirectory
  if b.options.dry_run then
    (0, [Event.echo workingDirectory command])
  else
    (w.exitCode command workingDirectory,
     [Event.echo workingDirectory command, Event.spawn workingDirectory command])

/-- Lines 150-152: `gitClean(path)` — a no-op returning `0` under
`skip_git`, else `git clean -xfd` in `path`. -/
def gitClean (b : Builder) (w : World) (path : String) : Int × List Event :=
  if b.options.skip_git then (0, [])
  else execute b w ["git", "clean", "-xfd"] path

/-- Lines 155-156: `make(path)` — run the derived make command. -/
def make (b : Builder) (w : World) (path : String) : Int × List Event :=
  execute b w b.makeCommand path

/-- Lines 164-168: the argument list of a `qmake` call — the executable,
then the global `--qmake-args` values (when truthy), then the
stage-specific extra arguments (when truthy). -/
def qmakeCommand (b : Builder) (w : World) (options : Option (List String)) : List String :=
  let command := [qmakePath w]
  let command :=
    if pyTruthyList b.options.qmake_args then command ++ b.options.qmake_args.getD []
    else command
  if pyTruthyList options then command ++ options.getD [] else command

/-- Lines 159-169: `qmake(path, options)` — raise `RuntimeError` when the
QMake executable is missing and this is not a dry run, else execute the
qmake command in `path`. -/
def qmake (b : Builder) (w : World) (path : String) (options : Option (List String)) :
    Except PyError Int × List Event :=
  if !isExe w (qmakePath w) && !b.options.dry_run then
    (.error (.runtimeError ("Could not find QMake executable: " ++ qmakePath w)), [])
  else
    let r := execute b w (qmakeCommand b w options) path
    (.ok r.1, r.2)

/-- Lines 174-185: the Windows branch of `platformQtConfigureOptions`. -/
def windowsPlatformOptions (w : World) : List String :=
  let platformOptions :=
    ["-mp", "-static-runtime", "-no-cetest", "-no-angle", "-icu", "-openssl", "-openssl-linked"]
  let deps := findThirdPartyDeps w
  platformOptions ++ deps.1 ++ deps.2

/-- Lines 188-215: the common Unix options of
`platformQtConfigureOptions`, with `-silent` appended when requested. -/
def unixPlatformOptions (options : Options) : List String :=
  let platformOptions :=
    ["-qpa", "phantom", "-no-qpa-platform-guard", "-openssl", "-openssl-linked",
     "-no-openvg", "-no-eglfs", "-no-egl", "-no-glib", "-no-cups", "-no-sm",
     "-no-xkb", "-no-xcb", "-no-kms", "-no-linuxfb", "-no-directfb", "-no-mtdev",
     "-no-libudev", "-no-evdev", "-no-feature-printpreviewwidget"]
  if options.silent then platformOptions ++ ["-silent"] else platformOptions

/-- Lines 228-232: one iteration of the Darwin OpenSSL search loop.  The
state is (found flag, flags collected so far, prints so far); note the
loop has no `break`, so later matches also extend the flag list. -/
def opensslSearchStep (w : World) (st : Bool × List String × List Event)
    (sp : SearchPathEntry) : Bool × List String × List Event :=
  if w.pathExists sp.header then
    (true, st.2.1 ++ sp.flags, st.2.2 ++ [Event.msg ("Found OpenSSL installed via " ++ sp.name)])
  else st

/-- Lines 172-252: `platformQtConfigureOptions()`.  On Darwin the OpenSSL
flags come either from the `OPENSSL` override (validated by the presence
of `include/openssl/opensslv.h` under it) or, when the override is
empty, from probing `openssl_search_paths`; the probe raises
`RuntimeError` when no location matches.  In the override branch,
`openssl_found` is assigned only inside the header-exists test (line
238), so when the header is absent the check at line 244 reads an
unassigned local and Python raises `UnboundLocalError` — the
`RuntimeError` at line 245 is dead code and is never produced. -/
def platformQtConfigureOptions (b : Builder) (w : World) :
    Except PyError (List String) × List Event :=
  if w.platform = .windows then
    (.ok (windowsPlatformOptions w), [])
  else
    let platformOptions := unixPlatformOptions b.options
    if w.platform = .darwin then
      let platformOptions := platformOptions ++ ["-no-pkg-config"]
      let openssl := (w.env "OPENSSL").getD ""
      if openssl = "" then
        let res := openssl_search_paths.foldl (opensslSearchStep w) (false, [], [])
        if !res.1 then
          (.error (.runtimeError "Could not find OpenSSL"), res.2.2)
        else
          (.ok (platformOptions ++ res.2.1), res.2.2)
      else
        if w.pathExists (openssl ++ "/include/openssl/opensslv.h") then
          (.ok (platformOptions ++ ["-I" ++ openssl ++ "/include", "-L" ++ openssl ++ "/lib"]),
           [Event.msg ("Using OpenSSL at " ++ openssl)])
        else
          (.error (.unboundLocalError "openssl_found"), [])
    else
      (.ok (platformOptions ++ ["-fontconfig", "-icu"]), [])

/-- Lines 258-291: the static part of the Qt Base configure command, in
source order — the configure executable (with `.bat` on Windows) and the
fixed computed flags. -/
def configureStatic (w : World) : List String :=
  let configureExe := w.abspath "src/qt/qtbase/configure"
  let configureExe := if w.platform = .windows then configureExe ++ ".bat" else configureExe
  [configureExe, "-static", "-opensource", "-confirm-license",
   "-prefix", w.abspath "src/qt/qtbase",
   "-qt-zlib", "-qt-libpng", "-qt-libjpeg", "-qt-pcre",
   "-nomake", "examples", "-nomake", "tools", "-nomake", "tests",
   "-no-dbus", "-no-opengl", "-no-qml-debug",
   "-no-sql-db2", "-no-sql-ibase", "-no-sql-mysql", "-no-sql-oci", "-no-sql-odbc",
   "-no-sql-psql", "-no-sql-sqlite", "-no-sql-sqlite2", "-no-sql-tds",
   "-no-tslib", "-no-xcb-xlib"]

/-- Lines 293-295: the loop appending `-D <macro>` for each entry of
`qt_compile_defs`. -/
def withCompileDefs (configure : List String) : List String :=
  qt_compile_defs.foldl (fun acc d => acc ++ ["-D", d]) configure

/-- Line 299: `''.join(self.options.qt_config).split(" ")` — the
separately supplied `--qt-config` values are concatenated with no
separator and the result split on single spaces. -/
def qtConfigTokens (qt_config : List String) : List String :=
  pySplitChar ' ' (String.join qt_config)

/-- Lines 301-307: the mode flag appended last — `-debug` when the debug
flag is set, else `-release` (also the default when neither is set). -/
def modeFlag (options : Options) : String :=
  if options.debug then "-debug"
  else if options.release then "-release"
  else "-release"

/-- Lines 258-307: the full Qt Base configure argument list — static
flags, compile defines, platform options, the processed `--qt-config`
tokens (when truthy), and finally the mode flag.  Errors from the
platform-option derivation propagate. -/
def configureQtBaseCmd (b : Builder) (w : World) : Except PyError (List String) × List Event :=
  match platformQtConfigureOptions b w with
  | (.error e, evs) => (.error e, evs)
  | (.ok platformOptions, evs) =>
    let configure := withCompileDefs (configureStatic w) ++ platformOptions
    let configure :=
      if pyTruthyList b.options.qt_config then
        configure ++ qtConfigTokens (b.options.qt_config.getD [])
      else configure
    (.ok (configure ++ [modeFlag b.options]), evs)

/-- Lines 255-310: `configureQtBase()` — print the progress line, build
the configure command, execute it in `src/qt/qtbase`, and raise
`RuntimeError` on a nonzero exit. -/
def configureQtBase (b : Builder) (w : World) : Except PyError Unit × List Event :=
  let ev0 := Event.msg "configuring Qt Base, please wait..."
  match configureQtBaseCmd b w with
  | (.error e, evs) => (.error e, ev0 :: evs)
  | (.ok configure, evs) =>
    let r := execute b w configure "src/qt/qtbase"
    if r.1 != 0 then
      (.error (.runtimeError "Configuration of Qt Base failed."), ev0 :: (evs ++ r.2))
    else
      (.ok (), ev0 :: (evs ++ r.2))

/-- Lines 313-332: `buildQtBase()`.  Unless the whole stage is skipped:
two best-effort `rm` shell calls (issued via `subprocess.call` with
`shell=True`, NOT routed through `execute`, so they spawn even under
dry-run), an optional git clean, the configure step — run whenever
`git_clean_qtbase` is set or `skip_configure_qtbase` is not — and the
make invocation, fatal on nonzero exit. -/
def buildQtBase (b : Builder) (w : World) : Except PyError Unit × List Event :=
  if b.options.skip_qtbase then
    (.ok (), [Event.msg "Skipping build of Qt Base"])
  else
    let evRm : List Event :=
      [Event.shellCall ("rm " ++ w.abspath "src/qt/qtbase/lib/libQt5WebKit*"),
       Event.shellCall ("rm " ++ w.abspath "src/qt/qtbase/mkspecs/modules/qt_lib_webkit*")]
    let evClean := if b.options.git_clean_qtbase then (gitClean b w "src/qt/qtbase").2 else []
    let conf :=
      if b.options.git_clean_qtbase || !b.options.skip_configure_qtbase then
        configureQtBase b w
      else (.ok (), [])
    match conf with
    | (.error e, evConf) => (.error e, evRm ++ evClean ++ evConf)
    | (.ok _, evConf) =>
      let mk := make b w "src/qt/qtbase"
      (if mk.1 != 0 then .error (.runtimeError "Building Qt Base failed.") else .ok (),
       evRm ++ evClean ++ evConf ++ [Event.msg "building Qt Base, please wait..."] ++ mk.2)

/-- Lines 346-348: the touch-events toggle forwarded to CMake. -/
def enableTouchEvents (options : Options) : String :=
  if options.disable_touch_events then "OFF" else "ON"

/-- Replacement of every `"` by `\"`, as performed by
`.replace("\"", "\\\"")` on the joined CMake argument string. -/
def pyEscapeQuotes (s : String) : String :=
  String.mk (s.toList.foldr (fun c acc => if c = '"' then '\\' :: '"' :: acc else c :: acc) [])

/-- Lines 350-362: the CMake argument list passed to `build-webkit`. -/
def cmakeArgs (w : World) (options : Options) : List String :=
  ["-Wno-dev",
   "-DCMAKE_INSTALL_PREFIX=" ++ w.abspath "src/qt/qtwebkit",
   "-DCMAKE_PREFIX_PATH=" ++ w.abspath "src/qt/qtbase",
   "-DQT_COMPILE_DEFINITIONS=\"" ++ String.intercalate " " qt_compile_defs ++ "\"",
   "-DENABLE_TOOLS=OFF", "-DENABLE_API_TESTS=OFF", "-DENABLE_TEST_SUPPORT=OFF",
   "-DENABLE_FTL_JIT=OFF", "-DENABLE_INDEXED_DATABASE=OFF", "-DENABLE_GSTREAMER=OFF",
   "-DENABLE_TOUCH_EVENTS=" ++ enableTouchEvents options]

/-- Lines 363-378: the `build-webkit` driver invocation before it is
joined and re-split by `shlex.split`. -/
def webkitDriverCommand (w : World) (options : Options) : List String :=
  ["./Tools/Scripts/build-webkit", "--qt",
   "--cmakeargs=\"" ++ pyEscapeQuotes (String.intercalate " " (cmakeArgs w options)) ++ "\"",
   "--no-geolocation", "--no-device-orientation", "--no-opengl", "--no-video",
   "--no-video-track", "--no-netscape-plugin-api", "--no-web-audio",
   "--no-fullscreen-api", "--no-legacy-web-audio", "--no-legacy-vendor-prefixes",
   "--no-web-replay"]

/-- Lines 335-397: `buildQtWebKit()`.  Unless the stage is skipped: an
optional git clean, `os.putenv("SQLITE3SRCDIR", ...)`, the single
`build-webkit` driver invocation (fatal on nonzero exit), then the
best-effort install/relocation steps: an `rm -rf` shell call, a
`make install` through `execute` (result ignored), and two `cp` shell
calls — the three shell calls again bypass `execute` and its dry-run
guard.  The `skip_configure_qtwebkit` option is never consulted. -/
def buildQtWebKit (b : Builder) (w : World) : Except PyError Unit × List Event :=
  if b.options.skip_qtwebkit then
    (.ok (), [Event.msg "Skipping build of Qt WebKit"])
  else
    let evClean := if b.options.git_clean_qtwebkit then (gitClean b w "src/qt/webkit").2 else []
    let evEnv := Event.putenv "SQLITE3SRCDIR" (w.abspath "src/qt/qtbase/src/3rdparty/sqlite")
    let ev1 := Event.msg "configuring Qt WebKit, please wait..."
    let ev2 := Event.msg "building Qt WebKit, please wait..."
    let driver :=
      execute b w (w.shlexSplit (String.intercalate " " (webkitDriverCommand w b.options)))
        "src/qt/webkit"
    if driver.1 != 0 then
      (.error (.runtimeError "Building Qt WebKit failed."),
       evClean ++ [evEnv, ev1, ev2] ++ driver.2)
    else
      let evRmRf := Event.shellCall ("rm -rf " ++ w.abspath "src/qt/qtwebkit")
      let install := execute b w (b.makeCommand ++ ["install"]) "src/qt/webkit/WebKitBuild/Release"
      let evCp1 := Event.shellCall ("cp " ++ w.abspath "src/qt/qtwebkit/lib/libQt5WebKit*"
        ++ " " ++ w.abspath "src/qt/qtbase/lib/")
      let evCp2 := Event.shellCall ("cp " ++ w.abspath "src/qt/qtwebkit/mkspecs/modules/qt_lib_webkit*"
        ++ " " ++ w.abspath "src/qt/qtbase/mkspecs/modules/")
      (.ok (), evClean ++ [evEnv, ev1, ev2] ++ driver.2 ++ [evRmRf] ++ install.2 ++ [evCp1, evCp2])

/-- Lines 400-406: `buildPhantomJS()` — a qmake call then a make call,
each fatal on nonzero exit (and qmake itself can raise when the QMake
executable is missing outside dry-run). -/
def buildPhantomJS (b : Builder) (w : World) : Except PyError Unit × List Event :=
  let ev1 := Event.msg "Configuring PhantomJS, please wait..."
  match qmake b w "." b.options.phantomjs_qmake_args with
  | (.error e, evs) => (.error e, ev1 :: evs)
  | (.ok code, evs) =>
    if code != 0 then
      (.error (.runtimeError "Configuration of PhantomJS failed."), ev1 :: evs)
    else
      let ev2 := Event.msg "Building PhantomJS, please wait..."
      let mk := make b w "."
      if mk.1 != 0 then
        (.error (.runtimeError "Building PhantomJS failed."), ev1 :: evs ++ [ev2] ++ mk.2)
      else
        (.ok (), ev1 :: evs ++ [ev2] ++ mk.2)

/-- Lines 409-414: `ensureSubmodulesAvailable()` — a no-op under
`skip_git`, else `git submodule init` and `git submodule update`, each
fatal on nonzero exit. -/
def ensureSubmodulesAvailable (b : Builder) (w : World) : Except PyError Unit × List Event :=
  if b.options.skip_git then (.ok (), [])
  else
    let r1 := execute b w ["git", "submodule", "init"] "."
    if r1.1 != 0 then
      (.error (.runtimeError "Initialization of git submodules failed."), r1.2)
    else
      let r2 := execute b w ["git", "submodule", "update"] "."
      if r2.1 != 0 then
        (.error (.runtimeError "Initial update of git submodules failed."), r1.2 ++ r2.2)
      else
        (.ok (), r1.2 ++ r2.2)

/-- Sequencing of two stages: events accumulate, the first error aborts
the rest (a raised `RuntimeError` propagates out of `run`). -/
def seqRun (r : Except PyError Unit × List Event)
    (f : Unit → Except PyError Unit × List Event) : Except PyError Unit × List Event :=
  match r with
  | (.error e, evs) => (.error e, evs)
  | (.ok _, evs) =>
    let r2 := f ()
    (r2.1, evs ++ r2.2)

/-- Lines 417-421: `run()` — the four stages in fixed order. -/
def runBuilder (b : Builder) (w : World) : Except PyError Unit × List Event :=
  seqRun (ensureSubmodulesAvailable b w) fun _ =>
    seqRun (buildQtBase b w) fun _ =>
      seqRun (buildQtWebKit b w) fun _ =>
        buildPhantomJS b w

/-- Lines 479-482: the validation at the end of `parseArguments` — both
mode flags set is a `RuntimeError`.  The argparse front-end itself is out
of scope; the claims quantify over already-parsed option records. -/
def parseArguments (options : Options) : Except PyError Options :=
  if options.debug && options.release then
    .error (.runtimeError "Cannot build with both debug and release mode enabled.")
  else
    .ok options

/-- Lines 501-511: the interactive confirmation loop over successive
stdin lines.  `n` cancels, `y` or an empty answer proceeds, anything else
re-prompts; end of input makes `readline` return the empty string, which
proceeds. -/
def confirmLoop : List String → Bool
  | [] => true
  | line :: rest =>
    let answer := (pyStrip line).toLower
    if answer = "n" then false
    else if answer = "y" || answer = "" then true
    else confirmLoop rest

/-- Lines 485-518: `main()` — parse and validate options, optionally
confirm interactively, build, and map outcomes to the process exit code:
`0` on success or cancellation, `1` when a `RuntimeError` is caught (or
when an uncaught `KeyError` or `UnboundLocalError` aborts the
interpreter with a traceback).  The returned trace
holds every event issued before termination; the warning banner and
prompt writes are not command events. -/
def mainModel (options : Options) (w : World) (stdin : List String) : Int × List Event :=
  match parseArguments options with
  | .error _ => (1, [])
  | .ok options =>
    let proceed := if !options.confirm then confirmLoop stdin else true
    if !proceed then (0, [])
    else
      match initBuilder options w with
      | .error _ => (1, [])
      | .ok b =>
        match runBuilder b w with
        | (.error _, evs) => (1, evs)
        | (.ok _, evs) => (0, evs)

/-- Events that correspond to an actual operating-system process spawn:
`subprocess.Popen` inside `execute` and `subprocess.call(..., shell=True)`. -/
def isSpawnEvent : Event → Bool
  | .spawn _ _ => true
  | .shellCall _ => true
  | _ => false

/-- Number of processes actually spawned along a trace. -/
def countSpawns (evs : List Event) : Nat := evs.countP fun e => isSpawnEvent e

/-- Command-echo events — the `Executing in ...` audit lines. -/
def isEchoEvent : Event → Bool
  | .echo _ _ => true
  | _ => false

/-- Number of echoed command previews along a trace. -/
def countEchoes (evs : List Event) : Nat := evs.countP fun e => isEchoEvent e

/-- The Qt Base configure executable name, as computed at line 258. -/
def configureExeName (w : World) : String :=
  let e := w.abspath "src/qt/qtbase/configure"
  if w.platform = .windows then e ++ ".bat" else e

/-- A spawn of the Qt Base configure command. -/
def isConfigureSpawn (w : World) : Event → Bool
  | .spawn _ cmd => cmd.head? = some (configureExeName w)
  | _ => false

/-- A generic Unix host for concrete runs: empty environment, a `.git`
directory present, no files, four CPU cores, identity path resolution,
all spawned commands succeeding. -/
def baseWorld : World where
  platform := .otherUnix
  env := fun _ => none
  isFile := fun _ => false
  accessXOK := fun _ => false
  isDir := fun s => s == ".git"
  pathExists := fun _ => false
  cpuCount := 4
  abspath := fun s => s
  shlexSplit := fun s => [s]
  exitCode := fun _ _ => 0
  root := ""

/-- A Unix host on which every file exists and is executable (so QMake is
found) and every command succeeds. -/
def fullFsWorld : World :=
  { baseWorld with isFile := fun _ => true, accessXOK := fun _ => true }

/-- A Darwin host whose `OPENSSL` override names a path under which the
marker header does not exist. -/
def darwinBadOverrideWorld : World :=
  { baseWorld with
      platform := .darwin,
      env := fun k => if k == "OPENSSL" then some "/nonexistent" else none }

/-- A Darwin host with no `OPENSSL` override on which both the Brew and
the MacPorts marker headers exist. -/
def darwinBothWorld : World :=
  { baseWorld with
      platform := .darwin,
      pathExists := fun s =>
        s == "/usr/local/opt/openssl/include/openssl/opensslv.h"
        || s == "/opt/local/include/openssl/opensslv.h" }

/-- A Unix host with no `.git` directory. -/
def noGitWorld : World :=
  { baseWorld with isDir := fun _ => false }

/-- A Darwin host with no `OPENSSL` override on which only the Brew
marker header exists. -/
def darwinBrewWorld : World :=
  { baseWorld with
      platform := .darwin,
      pathExists := fun s => s == "/usr/local/opt/openssl/include/openssl/opensslv.h" }

/-- A builder over the default options with a plain `make` command. -/
def plainBuilder : Builder := ⟨defaultOptions, ["make"]⟩

/-- Options with both mode flags set. -/
def c1Options : Options := { defaultOptions with debug := true, release := true }

/-- Options selecting a confirmed dry run, all else default. -/
def c2Options : Options := { defaultOptions with dry_run := true, confirm := true }

/-- Options enabling `--skip-configure-qtbase` together with
`--git-clean-qtbase` (confirmed, no dry run). -/
def c3Options : Options :=
  { defaultOptions with confirm := true, skip_configure_qtbase := true, git_clean_qtbase := true }

/-- C1: for every options value in which both the debug and release mode
flags are set, `parseArguments` raises the configuration `RuntimeError`,
`main` catches it and exits with code 1, and the trace is empty — no
command is echoed and no process is spawned before termination. -/
theorem C1_both_modes_error_before_invocation (options : Options) (w : World)
    (stdin : List String) (hd : options.debug = true) (hr : options.release = true) :
    mainModel options w stdin = (1, []) := by
  simp [mainModel, parseArguments, hd, hr]

/-- Witness for C1 at the concrete options `debug = release = true`. -/
theorem C1_both_modes_error_before_invocation_witness :
    c1Options.debug = true ∧ c1Options.release = true ∧
    mainModel c1Options baseWorld [] = (1, []) :=
  ⟨by decide, by decide,
   C1_both_modes_error_before_invocation c1Options baseWorld [] (by decide) (by decide)⟩

/-- C2: evaluation of the code at the failing input.  With `--dry-run`
set and everything else default, a full run on a Unix host exits 0 but
still spawns five shell processes — the two `rm` cleanup calls in
`buildQtBase` and the `rm -rf`/`cp`/`cp` relocation calls in
`buildQtWebKit` go through `subprocess.call(..., shell=True)`, bypassing
the dry-run guard in `execute` — while the spec and the `--dry-run` help
text ("Only print what would be done without actually executing
anything.") promise zero spawns. -/
theorem C2_dry_run_still_spawns_processes :
    c2Options.dry_run = true ∧
    (mainModel c2Options baseWorld []).1 = 0 ∧
    countSpawns (mainModel c2Options baseWorld []).2 = 5 := by
  decide

/-- C3 counterexample: with `--skip-configure-qtbase` enabled but
`--git-clean-qtbase` also set, the Qt Base configure command is spawned
once during a full (non-dry) run — the claim promises zero invocations of
the skipped sub-step for every combination of the other flags. -/
theorem C3_skip_configure_counterexample :
    c3Options.skip_configure_qtbase = true ∧
    (mainModel c3Options fullFsWorld []).2.countP
      (fun e => isConfigureSpawn fullFsWorld e) = 1 := by
  decide

/-- Matcher for the print that marks entry into `configureQtBase`. -/
def isConfigureStageMsg : Event → Bool
  | .msg s => s == "configuring Qt Base, please wait..."
  | _ => false

/-- C3 amended: the stage skips `skip_qtbase`, `skip_qtwebkit` and
`skip_git` are monotonic — each guarantees zero invocations of its
stage's commands for every combination of the other flags; the sub-step
skip `skip_configure_qtbase` guarantees zero configure invocations only
when `git_clean_qtbase` is not set (the trace then consists of the two
cleanup shell calls, the progress print and the make invocation, with no
configure event); and `skip_configure_qtwebkit` is parsed but never
consulted, so it never affects the Qt WebKit stage. -/
theorem C3_skip_flags_amended (b : Builder) (w : World) :
    (b.options.skip_qtbase = true →
      buildQtBase b w = (.ok (), [Event.msg "Skipping build of Qt Base"]))
    ∧ (b.options.skip_qtwebkit = true →
      buildQtWebKit b w = (.ok (), [Event.msg "Skipping build of Qt WebKit"]))
    ∧ (b.options.skip_git = true →
      (∀ path, gitClean b w path = (0, [])) ∧
      ensureSubmodulesAvailable b w = (.ok (), []))
    ∧ (b.options.skip_qtbase = false → b.options.skip_configure_qtbase = true →
       b.options.git_clean_qtbase = false →
      (buildQtBase b w).2 =
        [Event.shellCall ("rm " ++ w.abspath "src/qt/qtbase/lib/libQt5WebKit*"),
         Event.shellCall ("rm " ++ w.abspath "src/qt/qtbase/mkspecs/modules/qt_lib_webkit*"),
         Event.msg "building Qt Base, please wait..."] ++ (make b w "src/qt/qtbase").2
      ∧ (buildQtBase b w).2.countP (fun e => isConfigureStageMsg e) = 0)
    ∧ (∀ v, buildQtWebKit { b with options := { b.options with skip_configure_qtwebkit := v } } w
        = buildQtWebKit b w) := by
  refine ⟨fun h => by simp [buildQtBase, h],
          fun h => by simp [buildQtWebKit, h],
          fun h => ⟨fun path => by simp [gitClean, h],
                    by simp [ensureSubmodulesAvailable, h]⟩,
          fun h1 h2 h3 => ?_,
          fun v => ?_⟩
  · have htrace : (buildQtBase b w).2 =
        [Event.shellCall ("rm " ++ w.abspath "src/qt/qtbase/lib/libQt5WebKit*"),
         Event.shellCall ("rm " ++ w.abspath "src/qt/qtbase/mkspecs/modules/qt_lib_webkit*"),
         Event.msg "building Qt Base, please wait..."] ++ (make b w "src/qt/qtbase").2 := by
      simp [buildQtBase, h1, h2, h3]
    refine ⟨htrace, ?_⟩
    rw [htrace]
    rcases hdry : b.options.dry_run <;>
      simp [make, execute, hdry, isConfigureStageMsg, List.countP_cons, List.countP_append]
  · simp [buildQtWebKit, gitClean, execute, make, webkitDriverCommand, cmakeArgs,
      enableTouchEvents]

/-- A builder whose options set every stage skip flag. -/
def skipAllBuilder : Builder where
  options :=
    { defaultOptions with
        skip_qtbase := true,
        skip_qtwebkit := true,
        skip_git := true }
  makeCommand := ["make"]

/-- Witness for the amended C3 at a concrete builder with every skip flag
set. -/
theorem C3_skip_flags_amended_witness :
    buildQtBase skipAllBuilder baseWorld
      = (.ok (), [Event.msg "Skipping build of Qt Base"]) ∧
    buildQtWebKit skipAllBuilder baseWorld
      = (.ok (), [Event.msg "Skipping build of Qt WebKit"]) :=
  ⟨(C3_skip_flags_amended skipAllBuilder baseWorld).1 (by decide),
   (C3_skip_flags_amended skipAllBuilder baseWorld).2.1 (by decide)⟩

/-- Decidable equality for `Except` results, used to evaluate the model
at concrete inputs. -/
instance {ε α : Type} [DecidableEq ε] [DecidableEq α] : DecidableEq (Except ε α) := fun a b =>
  match a, b with
  | .error e, .error f =>
    if h : e = f then .isTrue (by rw [h])
    else .isFalse (by intro hc; injection hc with h2; exact h h2)
  | .ok x, .ok y =>
    if h : x = y then .isTrue (by rw [h])
    else .isFalse (by intro hc; injection hc with h2; exact h h2)
  | .error _, .ok _ => .isFalse (fun hc => Except.noConfusion hc)
  | .ok _, .error _ => .isFalse (fun hc => Except.noConfusion hc)

/-- A builder passing one user flag through `--qt-config`. -/
def c4Builder : Builder where
  options := { defaultOptions with qt_config := some ["-foo"] }
  makeCommand := ["make"]

/-- The Qt Base configure command at `c4Builder` on `baseWorld`. -/
def c4Cmd : List String :=
  match (configureQtBaseCmd c4Builder baseWorld).1 with
  | .ok cmd => cmd
  | .error _ => []

/-- C4 counterexample: in the Qt Base configure argument list, the
computed mode flag `-release` (appended by lines 301-307) comes after the
user-supplied `--qt-config` flag `-foo`, and is in fact the last
argument — so a computed flag does follow a user-supplied flag. -/
theorem C4_mode_flag_after_user_flags_counterexample :
    (configureQtBaseCmd c4Builder baseWorld).1 = .ok c4Cmd ∧
    "-foo" ∈ c4Cmd ∧ "-release" ∈ c4Cmd ∧
    c4Cmd.indexOf "-foo" < c4Cmd.indexOf "-release" ∧
    c4Cmd.getLast? = some "-release" := by
  decide

/-- C4 amended: the Qt Base configure list is exactly the computed flags
(static flags, compile defines, platform options), then the user-supplied
`--qt-config` tokens, then the computed mode flag `-debug`/`-release` —
i.e. the user flags come after every computed flag except the trailing
mode flag, which follows them; and a qmake invocation is exactly the
computed executable path followed by the user-supplied global and
stage-specific arguments, with no computed flag after them. -/
theorem C4_user_flags_order_amended (b : Builder) (w : World)
    (popts : List String) (evs : List Event)
    (hp : platformQtConfigureOptions b w = (.ok popts, evs))
    (hq : pyTruthyList b.options.qt_config = true) :
    (configureQtBaseCmd b w).1 =
      .ok (withCompileDefs (configureStatic w) ++ popts
        ++ qtConfigTokens (b.options.qt_config.getD []) ++ [modeFlag b.options]) ∧
    ∀ stageArgs, qmakeCommand b w stageArgs =
      [qmakePath w]
      ++ (if pyTruthyList b.options.qmake_args then b.options.qmake_args.getD [] else [])
      ++ (if pyTruthyList stageArgs then stageArgs.getD [] else []) := by
  constructor
  · simp [configureQtBaseCmd, hp, hq, List.append_assoc]
  · intro stageArgs
    cases h1 : pyTruthyList b.options.qmake_args <;>
      cases h2 : pyTruthyList stageArgs <;>
        simp [qmakeCommand, h1, h2]

/-- Witness for the amended C4 at `c4Builder` on the generic Unix host. -/
theorem C4_user_flags_order_amended_witness :
    (configureQtBaseCmd c4Builder baseWorld).1 =
      .ok (withCompileDefs (configureStatic baseWorld)
        ++ (unixPlatformOptions c4Builder.options ++ ["-fontconfig", "-icu"])
        ++ qtConfigTokens (c4Builder.options.qt_config.getD [])
        ++ [modeFlag c4Builder.options]) :=
  (C4_user_flags_order_amended c4Builder baseWorld
    (unixPlatformOptions c4Builder.options ++ ["-fontconfig", "-icu"]) []
    (by decide) (by decide)).1

/-- C5 counterexample: on Darwin with `OPENSSL=/nonexistent` and no
marker header under that path, option derivation does not raise a
configuration error at all: `openssl_found` was never assigned on this
path, so line 244 raises `UnboundLocalError` (whose fixed Python message
names only the variable, not the override path), the line-245
`RuntimeError` is dead code, and `main` — which catches only
`RuntimeError` — lets the exception escape as a traceback.  So no
configuration error naming the path is produced. -/
theorem C5_override_error_names_no_path_counterexample :
    platformQtConfigureOptions plainBuilder darwinBadOverrideWorld =
      (.error (.unboundLocalError "openssl_found"), []) ∧
    (PyError.unboundLocalError "openssl_found").isRuntimeError = false := by
  decide

/-- C5 amended: on Darwin, when the `OPENSSL` override names a non-empty
path under which the marker header does not exist, option derivation
fails before any invocation and without consulting the search list (the
theorem holds for every state of the well-known locations' marker
headers), but not with a configuration error naming the path: it raises
`UnboundLocalError` on `openssl_found` — the intended line-245
`RuntimeError` is unreachable — which is not a `RuntimeError` and is
therefore not caught by `main`; the interpreter aborts with a
traceback. -/
theorem C5_override_error_amended (b : Builder) (w : World) (p : String)
    (hplat : w.platform = .darwin)
    (henv : w.env "OPENSSL" = some p) (hne : p ≠ "")
    (hmiss : w.pathExists (p ++ "/include/openssl/opensslv.h") = false) :
    platformQtConfigureOptions b w =
      (.error (.unboundLocalError "openssl_found"), []) ∧
    (PyError.unboundLocalError "openssl_found").isRuntimeError = false := by
  constructor
  · simp [platformQtConfigureOptions, hplat, henv, hne, hmiss]
  · rfl

/-- Witness for the amended C5 at the concrete bad-override Darwin
host. -/
theorem C5_override_error_amended_witness :
    platformQtConfigureOptions plainBuilder darwinBadOverrideWorld =
      (.error (.unboundLocalError "openssl_found"), []) :=
  (C5_override_error_amended plainBuilder darwinBadOverrideWorld "/nonexistent"
    (by decide) (by decide) (by decide) (by decide)).1

/-- Options giving an explicit job count of zero. -/
def c6Options : Options := { defaultOptions with jobs := some 0 }

/-- C6 counterexample: `--jobs 0` is an explicitly given job count, but
Python truthiness treats `0` as absent (`if self.options.jobs:`), so the
derived make command falls back to the CPU-count default instead of using
the explicit count verbatim. -/
theorem C6_explicit_zero_jobs_counterexample :
    c6Options.jobs = some 0 ∧
    unixMakeCommand c6Options baseWorld = ["make", "-j", "4"] ∧
    unixMakeCommand c6Options baseWorld ≠ ["make", "-j", "0"] := by
  decide

/-- C6 amended: on non-Windows platforms the builder's make command is
`unixMakeCommand`, which uses the explicit job count verbatim only when
it is nonzero (an explicit `0` is treated as absent); otherwise, when the
inherited `MAKEFLAGS` value does not match the anchored dash-j-number
pattern, a job count equal to the detected CPU core count is injected,
and when it does match, no job flag is injected at all. -/
theorem C6_make_command_amended (options : Options) (w : World)
    (hplat : w.platform ≠ .windows) :
    (∃ b, initBuilder options w = .ok b ∧ b.makeCommand = unixMakeCommand options w)
    ∧ (∀ j : Int, options.jobs = some j → j ≠ 0 →
        unixMakeCommand options w = ["make", "-j", toString j])
    ∧ (pyTruthyInt options.jobs = false →
        matchDashJ ((w.env "MAKEFLAGS").getD "") = false →
        unixMakeCommand options w = ["make", "-j", toString w.cpuCount])
    ∧ (pyTruthyInt options.jobs = false →
        matchDashJ ((w.env "MAKEFLAGS").getD "") = true →
        unixMakeCommand options w = ["make"]) := by
  refine ⟨?_, ?_, ?_, ?_⟩
  · have h : initBuilder options w =
        .ok { options := initOptions options w,
              makeCommand := unixMakeCommand options w } := by
      simp [initBuilder, hplat]
    exact ⟨_, h, rfl⟩
  · intro j hj hnz
    simp [unixMakeCommand, pyTruthyInt, hj, hnz, pyStrOfOptInt]
  · intro hfalsy hmf
    simp [unixMakeCommand, hfalsy, hmf]
  · intro hfalsy hmf
    simp [unixMakeCommand, hfalsy, hmf]

/-- Witness for the amended C6: an explicit nonzero job count is used
verbatim on the generic Unix host. -/
theorem C6_make_command_amended_witness :
    unixMakeCommand { defaultOptions with jobs := some 7 } baseWorld
      = ["make", "-j", toString (7 : Int)] :=
  (C6_make_command_amended { defaultOptions with jobs := some 7 } baseWorld
    (by decide)).2.1 7 (by decide) (by decide)

/-- The platform option list produced at `plainBuilder` on the Darwin
host where both well-known marker headers exist. -/
def c7Flags : List String :=
  match (platformQtConfigureOptions plainBuilder darwinBothWorld).1 with
  | .ok l => l
  | .error _ => []

/-- C7 counterexample: on Darwin with no override and with both the Brew
and the MacPorts marker headers present, the search loop (which has no
`break`) adds the include/lib flags of BOTH locations, so more than one
location's flags appear in the result — the probe does not
short-circuit. -/
theorem C7_search_no_short_circuit_counterexample :
    (platformQtConfigureOptions plainBuilder darwinBothWorld).1 = .ok c7Flags ∧
    "-I/usr/local/opt/openssl/include" ∈ c7Flags ∧
    "-L/usr/local/opt/openssl/lib" ∈ c7Flags ∧
    "-I/opt/local/include" ∈ c7Flags ∧
    "-L/opt/local/lib" ∈ c7Flags := by
  decide

/-- C7 amended: on Darwin with no override, the ordered list of
well-known locations is probed WITHOUT short-circuiting — the include/lib
flags of every location whose marker header exists are appended in list
order (both sets when both headers exist) — and a fatal configuration
error is raised exactly when no location's marker header exists. -/
theorem C7_search_all_matches_amended (b : Builder) (w : World)
    (hplat : w.platform = .darwin)
    (henv : (w.env "OPENSSL").getD "" = "") :
    platformQtConfigureOptions b w =
      (if w.pathExists brewSearchPath.header = false
          ∧ w.pathExists macportsSearchPath.header = false then
        (.error (.runtimeError "Could not find OpenSSL"), [])
       else
        (.ok (unixPlatformOptions b.options ++ ["-no-pkg-config"]
           ++ ((if w.pathExists brewSearchPath.header then brewSearchPath.flags else [])
             ++ (if w.pathExists macportsSearchPath.header then macportsSearchPath.flags
                 else []))),
         (if w.pathExists brewSearchPath.header then
            [Event.msg "Found OpenSSL installed via Brew"] else [])
         ++ (if w.pathExists macportsSearchPath.header then
            [Event.msg "Found OpenSSL installed via MacPorts"] else []))) := by
  cases h1 : w.pathExists "/usr/local/opt/openssl/include/openssl/opensslv.h" <;>
    cases h2 : w.pathExists "/opt/local/include/openssl/opensslv.h" <;>
      simp [platformQtConfigureOptions, hplat, henv, openssl_search_paths,
        opensslSearchStep, h1, h2, brewSearchPath, macportsSearchPath,
        List.append_assoc]

/-- Witness for the amended C7: on the Darwin host where only the Brew
header exists, exactly the Brew flags are appended. -/
theorem C7_search_all_matches_amended_witness :
    platformQtConfigureOptions plainBuilder darwinBrewWorld =
      (.ok (unixPlatformOptions plainBuilder.options ++ ["-no-pkg-config"]
         ++ brewSearchPath.flags),
       [Event.msg "Found OpenSSL installed via Brew"]) := by
  rw [C7_search_all_matches_amended plainBuilder darwinBrewWorld (by decide) (by decide)]
  decide

/-- C8 counterexample: in an environment with no `PATH` variable, looking
up a program that is not itself an executable path raises a `KeyError`
(`os.environ["PATH"]`) instead of returning "not found" — the lookup is
not exception-free. -/
theorem C8_which_keyerror_counterexample :
    which baseWorld "someprogram" = .error (.keyError "PATH") := by
  decide

/-- Any hit returned by the `PATH` scan of `which` is an executable
file. -/
theorem whichSearch_result_isExe (w : World) (program : String) :
    ∀ (dirs : List String) (p : String),
      whichSearch w program dirs = some p → isExe w p = true := by
  intro dirs
  induction dirs with
  | nil => intro p h; simp [whichSearch] at h
  | cons d rest ih =>
    intro p h
    rw [whichSearch] at h
    by_cases hx : isExe w (ospJoin w.platform d program) = true
    · simp only [hx, if_true] at h
      cases h
      exact hx
    · simp only [Bool.not_eq_true] at hx
      simp only [hx, Bool.false_eq_true, if_false] at h
      exact ih p h

/-- C8 amended: executable lookup never throws and returns either an
executable file's path or "not found" — PROVIDED the program is itself an
executable path or the `PATH` variable is present in the environment;
when `PATH` is absent and the program is not directly executable, `which`
raises a `KeyError` instead. -/
theorem C8_which_total_amended (w : World) (program : String) :
    (isExe w program = true → which w program = .ok (some program))
    ∧ (∀ pathVar, w.env "PATH" = some pathVar →
        ∃ r, which w program = .ok r ∧ ∀ p, r = some p → isExe w p = true)
    ∧ (isExe w program = false → w.env "PATH" = none →
        which w program = .error (.keyError "PATH")) := by
  refine ⟨fun h => by simp [which, h], ?_, fun h1 h2 => by simp [which, h1, h2]⟩
  intro pathVar henv
  by_cases hx : isExe w program = true
  · exact ⟨some program, by simp [which, hx], fun p hp => by cases hp; exact hx⟩
  · simp only [Bool.not_eq_true] at hx
    refine ⟨whichSearch w program (pySplitChar (ospPathSep w.platform) pathVar),
      by simp [which, hx, henv], fun p hp => ?_⟩
    exact whichSearch_result_isExe w program _ p hp

/-- Witness for the amended C8: at the concrete environment without
`PATH`, the lookup raises the `KeyError`. -/
theorem C8_which_total_amended_witness :
    which baseWorld "phantomjs" = .error (.keyError "PATH") :=
  (C8_which_total_amended baseWorld "phantomjs").2.2 (by decide) (by decide)

/-- C9 counterexample: starting from options with `skip_git = false` on a
host without a `.git` directory, builder construction (which runs after
option parsing completed) mutates the options snapshot, setting
`skip_git` to `true` — so a field does not hold the value it held when
parsing completed. -/
theorem C9_options_mutated_counterexample :
    defaultOptions.skip_git = false ∧
    initBuilder defaultOptions noGitWorld =
      .ok { options := { defaultOptions with skip_git := true },
            makeCommand := ["make", "-j", "4"] } := by
  decide

/-- C9 amended: builder construction preserves every options field except
`skip_git`, which becomes `skip_git || not (a .git directory exists)`; in
particular the snapshot is NOT immutable — `skip_git` flips to `true`
during construction whenever `.git` is absent.  (After construction the
embedding threads the builder immutably through every stage, so no later
operation modifies any field.) -/
theorem C9_options_after_init_amended (options : Options) (w : World) (b : Builder)
    (h : initBuilder options w = .ok b) :
    b.options = { options with skip_git := options.skip_git || !w.isDir ".git" } := by
  have hopts : initOptions options w
      = { options with skip_git := options.skip_git || !w.isDir ".git" } := by
    unfold initOptions
    cases hgit : w.isDir ".git" <;> simp [hgit]
  unfold initBuilder at h
  by_cases hw : w.platform = .windows
  · simp only [hw] at h
    cases hjom : which w "jom.exe" with
    | error e =>
      rw [hjom] at h
      exact absurd h (by simp)
    | ok r =>
      rw [hjom] at h
      simp only [if_true, Except.ok.injEq] at h
      subst h
      exact hopts
  · simp only [if_neg hw, Except.ok.injEq] at h
    subst h
    exact hopts

/-- Witness for the amended C9 at the concrete no-git host. -/
theorem C9_options_after_init_amended_witness :
    ({ options := { defaultOptions with skip_git := true },
       makeCommand := ["make", "-j", "4"] } : Builder).options
      = { defaultOptions with skip_git := defaultOptions.skip_git || !noGitWorld.isDir ".git" } :=
  C9_options_after_init_amended defaultOptions noGitWorld _ (by decide)

/-- Splitting a character list that contains no separator yields the
accumulated field followed by the whole list. -/
theorem pySplitCharAux_no_sep (sep : Char) :
    ∀ (l acc : List Char), (∀ c ∈ l, c ≠ sep) →
      pySplitCharAux sep l acc = [acc.reverse ++ l] := by
  intro l
  induction l with
  | nil => intro acc h; simp [pySplitCharAux]
  | cons c cs ih =>
    intro acc h
    have hc : c ≠ sep := h c (List.mem_cons_self c cs)
    rw [pySplitCharAux]
    simp only [hc, if_false, reduceIte]
    rw [ih (c :: acc) (fun x hx => h x (List.mem_cons_of_mem c hx))]
    simp

/-- Python `split` on a string free of the separator returns the string
itself as the single field. -/
theorem pySplitChar_no_sep (sep : Char) (s : String) (h : ∀ c ∈ s.toList, c ≠ sep) :
    pySplitChar sep s = [s] := by
  unfold pySplitChar
  rw [pySplitCharAux_no_sep sep s.toList [] h]
  rfl

/-- Two space-free `--qt-config` occurrences are merged by
`''.join(...).split(" ")` into the single token formed by their
concatenation. -/
theorem qtConfigTokens_merges_pair (a c : String)
    (ha : ∀ ch ∈ a.toList, ch ≠ ' ') (hc : ∀ ch ∈ c.toList, ch ≠ ' ') :
    qtConfigTokens [a, c] = [a ++ c] := by
  have hjoin : String.join [a, c] = a ++ c := rfl
  unfold qtConfigTokens
  rw [hjoin]
  apply pySplitChar_no_sep
  intro ch hch
  have : (a ++ c).toList = a.toList ++ c.toList := rfl
  rw [this] at hch
  rcases List.mem_append.1 hch with hm | hm
  · exact ha ch hm
  · exact hc ch hm

/-- C10: when the repeatable `--qt-config` option is given twice with
space-free values `a` and `c`, the Qt Base configure command receives
them merged into the single token `a ++ c` (rather than as two tokens):
the final argument list is the computed flags, then exactly `[a ++ c]`,
then the mode flag. -/
theorem C10_qt_config_values_merged (b : Builder) (w : World) (a c : String)
    (popts : List String) (evs : List Event)
    (hqc : b.options.qt_config = some [a, c])
    (ha : ∀ ch ∈ a.toList, ch ≠ ' ') (hc : ∀ ch ∈ c.toList, ch ≠ ' ')
    (hp : platformQtConfigureOptions b w = (.ok popts, evs)) :
    (configureQtBaseCmd b w).1 =
      .ok (withCompileDefs (configureStatic w) ++ popts
        ++ [a ++ c] ++ [modeFlag b.options]) := by
  have htok : qtConfigTokens [a, c] = [a ++ c] := qtConfigTokens_merges_pair a c ha hc
  simp [configureQtBaseCmd, hp, hqc, pyTruthyList, htok, List.append_assoc]

/-- A builder whose options carry two separate `--qt-config`
occurrences. -/
def c10Builder : Builder where
  options := { defaultOptions with qt_config := some ["-opt-a", "-opt-b"] }
  makeCommand := ["make"]

/-- Witness for C10: the two concrete space-free values `-opt-a` and
`-opt-b` reach the configure command as the single token `-opt-a-opt-b`. -/
theorem C10_qt_config_values_merged_witness :
    (configureQtBaseCmd c10Builder baseWorld).1 =
      .ok (withCompileDefs (configureStatic baseWorld)
        ++ (unixPlatformOptions c10Builder.options ++ ["-fontconfig", "-icu"])
        ++ ["-opt-a" ++ "-opt-b"] ++ [modeFlag c10Builder.options]) :=
  C10_qt_config_values_merged c10Builder baseWorld "-opt-a" "-opt-b"
    (unixPlatformOptions c10Builder.options ++ ["-fontconfig", "-icu"]) []
    (by decide) (by decide) (by decide) (by decide)

end Build
